import Mathlib

/-!
Shallow embedding of the ComfyUI-Auth-Manager repository (src/nodes.py and
src/api.py) for checking its natural-language specification.

The embedding models:
  - Python JSON values and `json.dumps` with compact separators and
    `ensure_ascii=False`, as used by `AuthManager._get_hmac_signature`;
  - the on-disk artifacts (the auth-status file and the RunPod metadata
    file) as abstract file states: missing, unreadable, invalid JSON, or a
    parsed JSON value;
  - the operations of `AuthManager` (`_get_current_pod_id`,
    `_get_hmac_signature`, `_save_auth_status`, `_load_auth_status`,
    `is_authenticated`, `get_auth_status`, `authenticate`, `logout`) as
    pure functions over an explicit environment, an explicit transport
    outcome, and an explicit clock value;
  - the `/auth/authenticate` route handler of src/api.py.

Exceptions are modelled as values (`PyExn`); `try`/`except` blocks become
`Except`-valued intermediate results that the handler branches discharge.
-/

/-- Python exceptions that occur in the modelled fragments: `ValueError`
(tuple unpacking) carries its message, `AttributeError` (calling `.get` on a
non-dict) carries the offending value's type name. -/
inductive PyExn where
  | valueError (msg : String)
  | attributeError (objType : String)
deriving Repr, DecidableEq

/-- JSON values as produced by Python's `json` module on the data this
program handles (numbers restricted to integers, which is all the program
ever writes). -/
inductive Json where
  | null
  | bool (b : Bool)
  | num (n : Int)
  | str (s : String)
  | arr (xs : List Json)
  | obj (kvs : List (String × Json))
deriving Repr

/-- Lowercase hexadecimal digit, used for control-character escapes. -/
def hexDigit (n : Nat) : Char :=
  if n < 10 then Char.ofNat (48 + n) else Char.ofNat (87 + n)

/-- Escape of a single character inside a JSON string per `json.dumps` with
`ensure_ascii=False`: quote, backslash and control characters are escaped,
everything else (including non-ASCII) is emitted literally. -/
def jsonEscapeChar (c : Char) : String :=
  if c = Char.ofNat 34 then "\\\""
  else if c = Char.ofNat 92 then "\\\\"
  else if c = Char.ofNat 10 then "\\n"
  else if c = Char.ofNat 9 then "\\t"
  else if c = Char.ofNat 13 then "\\r"
  else if c = Char.ofNat 8 then "\\b"
  else if c = Char.ofNat 12 then "\\f"
  else if c.toNat < 32 then
    "\\u00" ++ String.mk [hexDigit (c.toNat / 16), hexDigit (c.toNat % 16)]
  else String.singleton c

/-- Escape of a whole JSON string body. -/
def jsonEscape (s : String) : String :=
  String.join (s.data.map jsonEscapeChar)

mutual

/-- Serialization of a JSON value exactly as
`json.dumps(x, separators=(",", ":"), ensure_ascii=False)` renders it:
compact separators, insertion-ordered object keys, non-ASCII unescaped. -/
def jsonDumps : Json → String
  | Json.null => "null"
  | Json.bool true => "true"
  | Json.bool false => "false"
  | Json.num n => toString n
  | Json.str s => "\"" ++ jsonEscape s ++ "\""
  | Json.arr xs => "[" ++ jsonDumpsList xs ++ "]"
  | Json.obj kvs => "\x7b" ++ jsonDumpsObj kvs ++ "\x7d"

/-- Comma-joined serialization of array elements. -/
def jsonDumpsList : List Json → String
  | [] => ""
  | [x] => jsonDumps x
  | x :: y :: rest => jsonDumps x ++ "," ++ jsonDumpsList (y :: rest)

/-- Comma-joined serialization of object members with the compact `":"`
key-value separator. -/
def jsonDumpsObj : List (String × Json) → String
  | [] => ""
  | [(k, v)] => "\"" ++ jsonEscape k ++ "\":" ++ jsonDumps v
  | (k, v) :: m :: rest =>
      "\"" ++ jsonEscape k ++ "\":" ++ jsonDumps v ++ "," ++ jsonDumpsObj (m :: rest)

end

/-- Python truthiness of a JSON value (`if pod_id:`, `if success and user_data:`). -/
def jsonTruthy : Json → Bool
  | Json.null => false
  | Json.bool b => b
  | Json.num n => n != 0
  | Json.str s => s ≠ ""
  | Json.arr xs => !xs.isEmpty
  | Json.obj kvs => !kvs.isEmpty

/-- Python type name of a JSON value, for `AttributeError` reporting. -/
def jsonTypeName : Json → String
  | Json.null => "NoneType"
  | Json.bool _ => "bool"
  | Json.num _ => "int"
  | Json.str _ => "str"
  | Json.arr _ => "list"
  | Json.obj _ => "dict"

/-- Python's `x.get(key, default)`: defined on dicts, raises
`AttributeError` on every other value. -/
def pyDictGet (j : Json) (key : String) (dflt : Json) : Except PyExn Json :=
  match j with
  | Json.obj kvs => Except.ok ((List.lookup key kvs).getD dflt)
  | other => Except.error (PyExn.attributeError (jsonTypeName other))

/-- State of a file consulted by the program: absent, present but unreadable
(open/read raises), present but not valid JSON (`json.load` raises), or
present with a parsed JSON value. -/
inductive PyFile where
  | missing
  | unreadable
  | invalidJson
  | content (j : Json)
deriving Repr

/-- Model of HMAC-SHA256 from Python's `hmac`/`hashlib` standard library
(library code, not part of this repository). Every claim under verification
depends only on the digest being a deterministic function of exactly the
key and the message bytes, never on the value of a digest, so the digest is
modelled abstractly as a tagged rendering of key and message. -/
def hmacSha256 (key message : String) : String :=
  "hmac-sha256:" ++ toString key.length ++ ":" ++ key ++ ":" ++ message

/-- Environment of one `AuthManager.authenticate` call: the values of the
environment variables it reads, the RunPod metadata file state, the pod id
captured at construction (`self.pod_id`) and the endpoint
(`self.auth_endpoint`). -/
structure AuthEnv where
  runpodPodIdEnv : String
  webhookSecret : String
  metaFile : PyFile
  selfPodId : String
  authEndpoint : String
deriving Repr

/-- Embedding of `AuthManager._get_current_pod_id` (src/nodes.py:77-99).
Method 1: the `RUNPOD_POD_ID` environment variable, if non-empty and not
"unknown". Method 2: the `podId` field of `/runpod-volume/runpod.json`, if
the file exists, parses, is a dict, holds the key and the value is truthy;
every exception in that block (unreadable file, invalid JSON, `.get` on a
non-dict) is caught. Fallback: `self.pod_id`. The value returned from the
metadata file is whatever JSON value is stored there, so the result is a
JSON value. -/
def getCurrentPodId (envPid : String) (meta : PyFile) (selfPid : String) : Json :=
  if envPid ≠ "" ∧ envPid ≠ "unknown" then Json.str envPid
  else
    match meta with
    | PyFile.content (Json.obj kvs) =>
        match List.lookup "podId" kvs with
        | some v => if jsonTruthy v then v else Json.str selfPid
        | none => Json.str selfPid
    | _ => Json.str selfPid

/-- Request payload of `AuthManager.authenticate` (src/nodes.py:134-139):
a dict with keys inserted in the order password, runPodId, username. -/
def authPayload (env : AuthEnv) (username password : String) : Json :=
  Json.obj
    [("password", Json.str password),
     ("runPodId", getCurrentPodId env.runpodPodIdEnv env.metaFile env.selfPodId),
     ("username", Json.str username)]

/-- Message string signed by `AuthManager._get_hmac_signature`
(src/nodes.py:109): `json.dumps(payload_data, separators=(",", ":"),
ensure_ascii=False)`. -/
def signedMessage (payloadData : Json) : String :=
  jsonDumps payloadData

/-- Embedding of `AuthManager._get_hmac_signature` (src/nodes.py:101-121):
returns `None` when `WEBHOOK_SECRET_KEY` is empty or unset, otherwise the
HMAC-SHA256 hex digest of the compact JSON serialization of the payload
under that secret. The surrounding `try`/`except` can only fire on faults
of the serializer or hash library, which the embedding's total functions
cannot produce. -/
def getHmacSignature (secretKey : String) (payloadData : Json) : Option String :=
  if secretKey = "" then none
  else some (hmacSha256 secretKey (signedMessage payloadData))

/-- One HTTP request as `requests.post` receives it from `authenticate`:
URL, JSON body, headers, timeout in seconds. -/
structure Request where
  url : String
  payload : Json
  headers : List (String × String)
  timeout : Nat
deriving Repr

/-- Request assembled by `AuthManager.authenticate` before the POST
(src/nodes.py:129-163): the payload, a `Content-Type` header, and an
`x-signature` header exactly when `_get_hmac_signature` produced one. -/
def buildAuthRequest (env : AuthEnv) (username password : String) : Request :=
  let payload := authPayload env username password
  let baseHeaders := [("Content-Type", "application/json")]
  let headers :=
    match getHmacSignature env.webhookSecret payload with
    | some signature => baseHeaders ++ [("x-signature", signature)]
    | none => baseHeaders
  { url := env.authEndpoint, payload := payload, headers := headers, timeout := 30 }

/-- Outcome of the `requests.post` call as seen by the `try` block: an HTTP
response with a status code and body text, or one of the exceptions the
`except` clauses distinguish (`requests.exceptions.Timeout`,
`requests.exceptions.ConnectionError`, any other exception). -/
inductive PostOutcome where
  | response (status : Nat) (text : String)
  | raiseTimeout
  | raiseConnectionError
  | raiseOther (msg : String)
deriving Repr

/-- Record written by `AuthManager._save_auth_status` (src/nodes.py:39-54). -/
structure AuthData where
  authenticated : Bool
  username : Option String
  timestamp : String
  podId : String
deriving Repr

/-- JSON rendering of a saved auth-status record, with the insertion order
of src/nodes.py:41-46. -/
def authDataToJson (d : AuthData) : Json :=
  Json.obj
    [("authenticated", Json.bool d.authenticated),
     ("username", match d.username with | some u => Json.str u | none => Json.null),
     ("timestamp", Json.str d.timestamp),
     ("pod_id", Json.str d.podId)]

/-- Embedding of `AuthManager._save_auth_status`: the record it writes,
given the current `datetime.now().isoformat()` string and `self.pod_id`. -/
def saveAuthStatusData (authenticated : Bool) (username : Option String)
    (nowIso selfPid : String) : AuthData :=
  { authenticated := authenticated, username := username,
    timestamp := nowIso, podId := selfPid }

/-- Observable result of one `AuthManager.authenticate` call: the returned
`(success, message)` pair, the auth-status record written (if the call
reached a `_save_auth_status`), and the network requests issued. -/
structure AuthCallResult where
  ret : Bool × String
  saved : Option AuthData
  networkCalls : List Request
deriving Repr

/-- Embedding of `AuthManager.authenticate` (src/nodes.py:123-199), with
the clock passed explicitly as the `datetime.now().isoformat()` string. The
status classification follows src/nodes.py:165-189 (`== 200`, `== 401`,
`== 403`, otherwise server error); the three `except` clauses follow
src/nodes.py:191-199 and write no status record. -/
def authenticate (env : AuthEnv) (username password : String)
    (post : PostOutcome) (nowIso : String) : AuthCallResult :=
  let req := buildAuthRequest env username password
  match post with
  | PostOutcome.response status _text =>
      if status = 200 then
        { ret := (true, "Authentication successful"),
          saved := some (saveAuthStatusData true (some username) nowIso env.selfPodId),
          networkCalls := [req] }
      else if status = 401 then
        { ret := (false, "Invalid username or password"),
          saved := some (saveAuthStatusData false none nowIso env.selfPodId),
          networkCalls := [req] }
      else if status = 403 then
        { ret := (false, "Access denied for this pod"),
          saved := some (saveAuthStatusData false none nowIso env.selfPodId),
          networkCalls := [req] }
      else
        { ret := (false, "Server error: " ++ toString status),
          saved := some (saveAuthStatusData false none nowIso env.selfPodId),
          networkCalls := [req] }
  | PostOutcome.raiseTimeout =>
      { ret := (false, "Authentication request timed out"),
        saved := none, networkCalls := [req] }
  | PostOutcome.raiseConnectionError =>
      { ret := (false, "Could not connect to authentication server"),
        saved := none, networkCalls := [req] }
  | PostOutcome.raiseOther msg =>
      { ret := (false, "Authentication error: " ++ msg),
        saved := none, networkCalls := [req] }

/-- Auth-status file after a call: unchanged when no record was written,
otherwise the written record (the write of src/nodes.py:49-50). -/
def fileAfterSave (before : PyFile) (saved : Option AuthData) : PyFile :=
  match saved with
  | none => before
  | some d => PyFile.content (authDataToJson d)

/-- Default status returned by `AuthManager._load_auth_status` when the
file is absent or unreadable (src/nodes.py:63,66). -/
def defaultAuthStatus : Json :=
  Json.obj [("authenticated", Json.bool false), ("username", Json.null)]

/-- Embedding of `AuthManager._load_auth_status` (src/nodes.py:56-66): the
`try` block returns the parsed file content when the file exists and
parses; a missing file returns the default, and every exception (unreadable
file, invalid JSON) is caught and returns the default. It never raises. -/
def loadAuthStatus (f : PyFile) : Json :=
  match f with
  | PyFile.content j => j
  | PyFile.missing => defaultAuthStatus
  | PyFile.unreadable => defaultAuthStatus
  | PyFile.invalidJson => defaultAuthStatus

/-- Embedding of `AuthManager.is_authenticated` (src/nodes.py:68-71):
`self._load_auth_status().get("authenticated", False)`, outside any
`try` block, so the `AttributeError` of `.get` on a non-dict value
propagates. -/
def isAuthenticated (f : PyFile) : Except PyExn Json :=
  pyDictGet (loadAuthStatus f) "authenticated" (Json.bool false)

/-- Embedding of `AuthManager.get_auth_status` (src/nodes.py:73-75). -/
def getAuthStatus (f : PyFile) : Json :=
  loadAuthStatus f

/-- Observable effects of `AuthManager.logout` (src/nodes.py:201-204): the
record handed to `_save_auth_status(authenticated=False)` and the network
requests issued (none — the method only writes the status file). -/
structure LogoutResult where
  saved : AuthData
  networkCalls : List Request
deriving Repr

/-- Embedding of `AuthManager.logout`. -/
def logout (nowIso selfPid : String) : LogoutResult :=
  { saved := saveAuthStatusData false none nowIso selfPid, networkCalls := [] }

/-- Auth-status file after `logout` runs against file state `f`. -/
def logoutFile (nowIso selfPid : String) (f : PyFile) : PyFile :=
  fileAfterSave f (some (logout nowIso selfPid).saved)

/-- Python tuple rendering of `authenticate`'s return value: the 2-tuple
`(success, message)` as a sequence, so that unpacking arity is visible. -/
def authenticateReturnTuple (ret : Bool × String) : List Json :=
  [Json.bool ret.fst, Json.str ret.snd]

/-- Python's `a, b, c = xs` unpacking of a sequence into three targets:
succeeds exactly on length-3 sequences, otherwise raises `ValueError` with
CPython's message for the too-short case observed here. -/
def unpack3 (xs : List Json) : Except PyExn (Json × Json × Json) :=
  match xs with
  | [a, b, c] => Except.ok (a, b, c)
  | other =>
      Except.error (PyExn.valueError
        ("not enough values to unpack (expected 3, got " ++
          toString other.length ++ ")"))

/-- String form `str(e)` of an exception, as interpolated into the route's
error message. -/
def pyExnStr : PyExn → String
  | PyExn.valueError msg => msg
  | PyExn.attributeError objType =>
      objType ++ " object has no attribute get"

/-- HTTP response produced by the route layer: status code plus JSON body
(`web.json_response` defaults to status 200). -/
structure RouteResponse where
  status : Nat
  body : Json
deriving Repr

/-- Truthiness of `data.get("username")` on an optional string field:
`None` and the empty string are falsy. -/
def truthyOptStr : Option String → Bool
  | none => false
  | some s => s ≠ ""

/-- Embedding of the `/auth/authenticate` route handler (src/api.py:46-88).
Inputs: the `username`/`password` fields of the request body, the value the
awaited `auth_manager.authenticate(...)` call produced (as a Python tuple),
the current time string, and the result of `get_premium_env_vars()`.
Missing or empty credentials answer 400; then the handler unpacks the
awaited result into `success, message, user_data`; every exception inside
the `try` block — including a `ValueError` from that unpacking — is caught
and answered with status 500 (src/api.py:84-88). -/
def routeAuthenticate (username password : Option String)
    (authResult : List Json) (nowIso : String)
    (premiumConfig : Option Json) : RouteResponse :=
  if ¬ truthyOptStr username ∨ ¬ truthyOptStr password then
    { status := 400,
      body := Json.obj
        [("success", Json.bool false),
         ("message", Json.str "Username and password are required")] }
  else
    match unpack3 authResult with
    | Except.error e =>
        { status := 500,
          body := Json.obj
            [("success", Json.bool false),
             ("message", Json.str ("Authentication error: " ++ pyExnStr e))] }
    | Except.ok (success, message, userData) =>
        let base :=
          [("success", success), ("message", message),
           ("timestamp", Json.str nowIso)]
        let body :=
          if jsonTruthy success ∧ jsonTruthy userData then
            base ++ [("user_data", userData)] ++
              (match premiumConfig with
               | some cfg => [("premium_config", cfg)]
               | none =>
                   [("premium_config", Json.obj [("isPremium", Json.bool false)])])
          else base
        { status := 200, body := Json.obj body }

/-- Canonical signing message as the claim describes it (stated from the
spec's words, for comparison with the message the source actually signs): a
payload of exactly the fields action="authenticate", pod_id, an integer
Unix timestamp, and username, serialized with lexicographically sorted
keys, compact separators and non-ASCII unescaped. -/
def specCanonicalSigningMessage (podId username : String) (timestamp : Int) : String :=
  jsonDumps (Json.obj
    [("action", Json.str "authenticate"),
     ("pod_id", Json.str podId),
     ("timestamp", Json.num timestamp),
     ("username", Json.str username)])

/-- Concrete environment used by the closed counterexample and witness
theorems: pod id "pod-1" from the environment, secret "s3cret", no
metadata file. -/
def envFixture : AuthEnv :=
  { runpodPodIdEnv := "pod-1", webhookSecret := "s3cret",
    metaFile := PyFile.missing, selfPodId := "pod-1",
    authEndpoint := "https://your-api.com" }

/-- Auth-status file recording an earlier successful authentication, used
as the starting state of the stored-state counterexample. -/
def fileBeforeFixture : PyFile :=
  PyFile.content (authDataToJson
    { authenticated := true, username := some "alice",
      timestamp := "2026-01-01T00:00:00", podId := "pod-1" })

/-- Pod id the metadata-file method of `_get_current_pod_id` yields, if
any: the `podId` value when the file parses to a dict holding a truthy
value under that key. -/
def metaPodId (meta : PyFile) : Option Json :=
  match meta with
  | PyFile.content (Json.obj kvs) =>
      match List.lookup "podId" kvs with
      | some v => if jsonTruthy v then some v else none
      | none => none
  | _ => none

/-- Every branch of `authenticate` issues exactly the one built request:
the POST at src/nodes.py:158-163 happens before the classification and the
`except` clauses. -/
theorem authenticate_networkCalls :
    ∀ (env : AuthEnv) (u p now : String) (po : PostOutcome),
      (authenticate env u p po now).networkCalls = [buildAuthRequest env u p] := by
  intro env u p now po
  cases po with
  | response status text =>
      by_cases h200 : status = 200
      · simp [authenticate, h200]
      · by_cases h401 : status = 401
        · simp [authenticate, h200, h401]
        · by_cases h403 : status = 403
          · simp [authenticate, h200, h401, h403]
          · simp [authenticate, h200, h401, h403]
  | raiseTimeout => rfl
  | raiseConnectionError => rfl
  | raiseOther msg => rfl

/-- C6: `authenticate` never lets an exception propagate: the POST carries a
30-second timeout, a request timeout becomes the timed-out outcome, a
connection failure the connection-failure outcome, and any other
transport-layer fault a typed failure outcome; each fault branch returns a
plain `(success, message)` value (the embedding is a total function into
`AuthCallResult`, mirroring the `except` clauses of src/nodes.py:191-199
that catch every exception). -/
theorem c6_transport_faults_become_typed_outcomes :
    ∀ (env : AuthEnv) (u p now msg : String),
      (buildAuthRequest env u p).timeout = 30
      ∧ authenticate env u p PostOutcome.raiseTimeout now
          = { ret := (false, "Authentication request timed out"),
              saved := none, networkCalls := [buildAuthRequest env u p] }
      ∧ authenticate env u p PostOutcome.raiseConnectionError now
          = { ret := (false, "Could not connect to authentication server"),
              saved := none, networkCalls := [buildAuthRequest env u p] }
      ∧ authenticate env u p (PostOutcome.raiseOther msg) now
          = { ret := (false, "Authentication error: " ++ msg),
              saved := none, networkCalls := [buildAuthRequest env u p] } := by
  intro env u p now msg
  exact ⟨rfl, rfl, rfl, rfl⟩

/-- C7: with an empty (or unset) secret the signature builder returns the
"no signature" marker `none` rather than a fault, and `authenticate` then
sends the request with only the `Content-Type` header (no signature header)
instead of aborting — the POST is still issued. -/
theorem c7_empty_secret_proceeds_unsigned :
    (∀ payloadData : Json, getHmacSignature "" payloadData = none)
    ∧ (∀ (env : AuthEnv) (u p : String), env.webhookSecret = "" →
        (buildAuthRequest env u p).headers = [("Content-Type", "application/json")])
    ∧ (∀ (env : AuthEnv) (u p now : String) (po : PostOutcome),
        (authenticate env u p po now).networkCalls = [buildAuthRequest env u p]) := by
  refine ⟨fun payloadData => rfl, ?_, ?_⟩
  · intro env u p h
    simp [buildAuthRequest, getHmacSignature, h]
  · intro env u p now po
    exact authenticate_networkCalls env u p now po

/-- C7 witness: at the concrete environment with an empty secret the built
request carries only the content-type header. -/
theorem c7_witness :
    (buildAuthRequest
        { runpodPodIdEnv := "pod-1", webhookSecret := "",
          metaFile := PyFile.missing, selfPodId := "pod-1",
          authEndpoint := "https://your-api.com" } "a@b.com" "pw").headers
      = [("Content-Type", "application/json")] :=
  c7_empty_secret_proceeds_unsigned.2.1
    { runpodPodIdEnv := "pod-1", webhookSecret := "",
      metaFile := PyFile.missing, selfPodId := "pod-1",
      authEndpoint := "https://your-api.com" } "a@b.com" "pw" rfl

/-- C9: `logout` leaves the stored state not-authenticated (so
`is_authenticated` reads false immediately afterwards), performs no network
call, and is idempotent — a second `logout` leaves the state exactly as one
`logout` does, from any starting file state. -/
theorem c9_logout_idempotent_no_network :
    ∀ (now n1 n2 pid : String) (f : PyFile),
      isAuthenticated (logoutFile now pid f) = Except.ok (Json.bool false)
      ∧ (logout now pid).networkCalls = []
      ∧ logoutFile now pid (logoutFile now pid f) = logoutFile now pid f
      ∧ logoutFile n2 pid (logoutFile n1 pid f) = logoutFile n2 pid f := by
  intro now n1 n2 pid f
  exact ⟨rfl, rfl, rfl, rfl⟩

/-- C10 counterexample: a persisted status artifact holding valid JSON that
is not an object (here the array `[]`) makes `is_authenticated` raise an
`AttributeError` (`.get` on a list), while `get_auth_status` returns the
parsed value without falling back — refuting "is_authenticated ... never
raise[s]" as stated over every artifact state. -/
theorem c10_counterexample :
    isAuthenticated (PyFile.content (Json.arr []))
        = Except.error (PyExn.attributeError "list")
      ∧ getAuthStatus (PyFile.content (Json.arr [])) = Json.arr [] :=
  ⟨rfl, rfl⟩

/-- C10 (amended): `get_auth_status` never raises for any artifact state;
`_load_auth_status` falls back to the not-authenticated default exactly
when the artifact is missing, unreadable or invalid JSON (parsed content is
returned as is); `is_authenticated` returns false in those three fallback
cases and never raises whenever the artifact is absent, bad, or holds a
JSON object — but it raises `AttributeError` when the artifact holds valid
non-object JSON. -/
theorem c10_amended_load_fallback :
    (∀ f : PyFile, getAuthStatus f = loadAuthStatus f)
    ∧ loadAuthStatus PyFile.missing = defaultAuthStatus
    ∧ loadAuthStatus PyFile.unreadable = defaultAuthStatus
    ∧ loadAuthStatus PyFile.invalidJson = defaultAuthStatus
    ∧ (∀ j : Json, loadAuthStatus (PyFile.content j) = j)
    ∧ isAuthenticated PyFile.missing = Except.ok (Json.bool false)
    ∧ isAuthenticated PyFile.unreadable = Except.ok (Json.bool false)
    ∧ isAuthenticated PyFile.invalidJson = Except.ok (Json.bool false)
    ∧ (∀ (f : PyFile) (kvs : List (String × Json)),
        f = PyFile.content (Json.obj kvs) →
          ∃ v, isAuthenticated f = Except.ok v) := by
  refine ⟨fun f => rfl, rfl, rfl, rfl, fun j => rfl, rfl, rfl, rfl, ?_⟩
  intro f kvs hf
  subst hf
  exact ⟨(List.lookup "authenticated" kvs).getD (Json.bool false), rfl⟩

/-- C10 witness: applying the amended theorem at a concrete object-valued
artifact. -/
theorem c10_witness :
    ∃ v, isAuthenticated
        (PyFile.content (Json.obj [("authenticated", Json.bool true)]))
        = Except.ok v :=
  c10_amended_load_fallback.2.2.2.2.2.2.2.2
    (PyFile.content (Json.obj [("authenticated", Json.bool true)]))
    [("authenticated", Json.bool true)] rfl

/-- C1 counterexample: at username "a@b.com", password "pw", resolved pod id
"pod-1" and secret "s3cret", the message handed to HMAC-SHA256 is the
compact serialization of the request payload (password, runPodId, username)
and differs from the canonical signing payload the claim describes
(action, pod_id, timestamp, username with sorted keys) at any timestamp,
here 1700000000; the attached signature is the digest of that request
payload serialization. -/
theorem c1_counterexample :
    signedMessage (authPayload envFixture "a@b.com" "pw")
        = "\x7b\"password\":\"pw\",\"runPodId\":\"pod-1\",\"username\":\"a@b.com\"\x7d"
      ∧ specCanonicalSigningMessage "pod-1" "a@b.com" 1700000000
        = "\x7b\"action\":\"authenticate\",\"pod_id\":\"pod-1\",\"timestamp\":1700000000,\"username\":\"a@b.com\"\x7d"
      ∧ signedMessage (authPayload envFixture "a@b.com" "pw")
        ≠ specCanonicalSigningMessage "pod-1" "a@b.com" 1700000000
      ∧ getHmacSignature envFixture.webhookSecret (authPayload envFixture "a@b.com" "pw")
        = some (hmacSha256 "s3cret" (signedMessage (authPayload envFixture "a@b.com" "pw"))) := by
  refine ⟨rfl, rfl, ?_, rfl⟩
  decide

/-- C1 (amended): for every call with a non-empty secret, the HMAC-SHA256
signature is computed over the compact JSON serialization (non-ASCII
unescaped) of the full request payload, whose keys appear in insertion
order password, runPodId, username (incidentally lexicographic); the
signing payload carries no timestamp and no action discriminator, and the
keys are never explicitly sorted. -/
theorem c1_amended_signature_over_request_payload :
    (∀ (env : AuthEnv) (u p : String), env.webhookSecret ≠ "" →
        getHmacSignature env.webhookSecret (authPayload env u p)
          = some (hmacSha256 env.webhookSecret
              (signedMessage (Json.obj
                [("password", Json.str p),
                 ("runPodId",
                   getCurrentPodId env.runpodPodIdEnv env.metaFile env.selfPodId),
                 ("username", Json.str u)]))))
    ∧ signedMessage (authPayload envFixture "a@b.com" "pw")
        = "\x7b\"password\":\"pw\",\"runPodId\":\"pod-1\",\"username\":\"a@b.com\"\x7d" := by
  constructor
  · intro env u p h
    simp [getHmacSignature, h, authPayload]
  · rfl

/-- C1 witness: the amended theorem applied at the concrete fixture. -/
theorem c1_witness :
    getHmacSignature envFixture.webhookSecret (authPayload envFixture "a@b.com" "pw")
      = some (hmacSha256 envFixture.webhookSecret
          (signedMessage (Json.obj
            [("password", Json.str "pw"),
             ("runPodId",
               getCurrentPodId envFixture.runpodPodIdEnv envFixture.metaFile
                 envFixture.selfPodId),
             ("username", Json.str "a@b.com")]))) :=
  c1_amended_signature_over_request_payload.1 envFixture "a@b.com" "pw" (by decide)

/-- C8: the bytes signed are the compact JSON serialization of the full
request payload, so the HMAC covers the plaintext password and contains no
timestamp; two calls with identical username, password, environment (hence
resolved pod id) and secret issue byte-for-byte identical signed requests no
matter what clock values or transport outcomes the two calls see — the
signed request is time-independent and replayable. -/
theorem c8_signed_request_time_independent :
    (∀ (env : AuthEnv) (u p n1 n2 : String) (po1 po2 : PostOutcome),
        (authenticate env u p po1 n1).networkCalls
          = (authenticate env u p po2 n2).networkCalls)
    ∧ (∀ (env : AuthEnv) (u p : String),
        (buildAuthRequest env u p).payload = authPayload env u p)
    ∧ (∀ (secret : String) (payloadData : Json), secret ≠ "" →
        getHmacSignature secret payloadData
          = some (hmacSha256 secret (signedMessage payloadData)))
    ∧ signedMessage (authPayload envFixture "a@b.com" "hunter2")
        = "\x7b\"password\":\"hunter2\",\"runPodId\":\"pod-1\",\"username\":\"a@b.com\"\x7d" := by
  refine ⟨?_, ?_, ?_, rfl⟩
  · intro env u p n1 n2 po1 po2
    rw [authenticate_networkCalls env u p n1 po1,
      authenticate_networkCalls env u p n2 po2]
  · intro env u p
    rfl
  · intro secret payloadData h
    simp [getHmacSignature, h]

/-- C8 witness: two calls a year of wall-clock time apart, one answered 200
and one timing out, issue the identical signed request; at the concrete
secret "s3cret" the signature is the digest of the payload serialization. -/
theorem c8_witness :
    (authenticate envFixture "a@b.com" "pw" (PostOutcome.response 200 "ok")
        "2025-01-01T00:00:00").networkCalls
      = (authenticate envFixture "a@b.com" "pw" PostOutcome.raiseTimeout
          "2026-01-01T00:00:00").networkCalls
    ∧ getHmacSignature "s3cret" (authPayload envFixture "a@b.com" "pw")
      = some (hmacSha256 "s3cret"
          (signedMessage (authPayload envFixture "a@b.com" "pw"))) :=
  ⟨c8_signed_request_time_independent.1 envFixture "a@b.com" "pw"
      "2025-01-01T00:00:00" "2026-01-01T00:00:00"
      (PostOutcome.response 200 "ok") PostOutcome.raiseTimeout,
    c8_signed_request_time_independent.2.2.1 "s3cret"
      (authPayload envFixture "a@b.com" "pw") (by decide)⟩

/-- C2: `AuthManager.authenticate` returns a 2-tuple in every outcome
branch, while the `/auth/authenticate` route handler unpacks it into three
targets; hence every POST supplying a (truthy) username and password is
answered through the handler's exception path with HTTP status 500 and the
`ValueError` unpacking message, whatever the verifier did. -/
theorem c2_route_unpack_mismatch_yields_500 :
    ∀ (env : AuthEnv) (u p now : String) (po : PostOutcome)
      (premium : Option Json), u ≠ "" → p ≠ "" →
      (authenticateReturnTuple (authenticate env u p po now).ret).length = 2
      ∧ routeAuthenticate (some u) (some p)
          (authenticateReturnTuple (authenticate env u p po now).ret) now premium
        = { status := 500,
            body := Json.obj
              [("success", Json.bool false),
               ("message", Json.str
                 "Authentication error: not enough values to unpack (expected 3, got 2)")] } := by
  intro env u p now po premium hu hp
  refine ⟨rfl, ?_⟩
  have h2 : unpack3 (authenticateReturnTuple (authenticate env u p po now).ret)
      = Except.error (PyExn.valueError
          "not enough values to unpack (expected 3, got 2)") := by
    simp [unpack3, authenticateReturnTuple]
    rfl
  unfold routeAuthenticate
  rw [if_neg (by simp [truthyOptStr, hu, hp]), h2]
  rfl

/-- C2 witness: a concrete POST with both credentials, against a verifier
answering 200, is still answered with status 500. -/
theorem c2_witness :
    (routeAuthenticate (some "a@b.com") (some "pw")
        (authenticateReturnTuple
          (authenticate envFixture "a@b.com" "pw" (PostOutcome.response 200 "ok")
            "2026-01-01T00:00:00").ret)
        "2026-01-01T00:00:00" none).status = 500 := by
  have h := c2_route_unpack_mismatch_yields_500 envFixture "a@b.com" "pw"
    "2026-01-01T00:00:00" (PostOutcome.response 200 "ok") none
    (by decide) (by decide)
  rw [h.2]

/-- C3 counterexample: a verifier response with status 201 — a 2xx status —
is classified as the server-error outcome "Server error: 201" with the
stored state set to not-authenticated, not as a 200-equivalent success. -/
theorem c3_counterexample :
    (authenticate envFixture "a@b.com" "pw" (PostOutcome.response 201 "")
        "2026-01-01T00:00:00").ret = (false, "Server error: 201")
      ∧ (authenticate envFixture "a@b.com" "pw" (PostOutcome.response 201 "")
          "2026-01-01T00:00:00").saved
        = some (saveAuthStatusData false none "2026-01-01T00:00:00" "pod-1") := by
  exact ⟨rfl, rfl⟩

/-- C3 (amended): `authenticate` classifies the verifier's response by
exact status code: only 200 yields the success outcome (recording the
current time and username in the saved status; no session id is derived);
401 yields the invalid-credentials outcome; 403 the access-denied outcome;
and every other status — including every other 2xx — yields a server-error
outcome carrying that status code. -/
theorem c3_amended_status_classification :
    ∀ (env : AuthEnv) (u p now text : String) (c : Nat),
      (authenticate env u p (PostOutcome.response 200 text) now).ret
          = (true, "Authentication successful")
      ∧ (authenticate env u p (PostOutcome.response 200 text) now).saved
          = some (saveAuthStatusData true (some u) now env.selfPodId)
      ∧ (authenticate env u p (PostOutcome.response 401 text) now).ret
          = (false, "Invalid username or password")
      ∧ (authenticate env u p (PostOutcome.response 403 text) now).ret
          = (false, "Access denied for this pod")
      ∧ (c ≠ 200 → c ≠ 401 → c ≠ 403 →
          (authenticate env u p (PostOutcome.response c text) now).ret
            = (false, "Server error: " ++ toString c)) := by
  intro env u p now text c
  refine ⟨rfl, rfl, rfl, rfl, ?_⟩
  intro h200 h401 h403
  simp [authenticate, h200, h401, h403]

/-- C3 witness: status 418 at concrete inputs is a server-error outcome. -/
theorem c3_witness :
    (authenticate envFixture "a@b.com" "pw" (PostOutcome.response 418 "teapot")
        "2026-01-01T00:00:00").ret = (false, "Server error: 418") :=
  (c3_amended_status_classification envFixture "a@b.com" "pw"
      "2026-01-01T00:00:00" "teapot" 418).2.2.2.2
    (by decide) (by decide) (by decide)

/-- C5 counterexample: starting from a stored state recording a successful
authentication, a call that times out writes nothing — afterwards the
stored state still says authenticated=true, although the timeout outcome is
a non-Success outcome, refuting "every non-Success outcome sets
authenticated=false". -/
theorem c5_counterexample :
    fileAfterSave fileBeforeFixture
        (authenticate envFixture "alice" "pw" PostOutcome.raiseTimeout
          "2026-01-02T00:00:00").saved
      = fileBeforeFixture
    ∧ isAuthenticated
        (fileAfterSave fileBeforeFixture
          (authenticate envFixture "alice" "pw" PostOutcome.raiseTimeout
            "2026-01-02T00:00:00").saved)
      = Except.ok (Json.bool true)
    ∧ (authenticate envFixture "alice" "pw" PostOutcome.raiseTimeout
        "2026-01-02T00:00:00").ret
      = (false, "Authentication request timed out") := by
  exact ⟨rfl, rfl, rfl⟩

/-- C5 (amended): the stored state reflects the outcome only for
HTTP-classified outcomes: success (status 200) stores authenticated=true
with the username, and 401, 403 and every other status store
authenticated=false; the timeout, connection-failure and generic-fault
outcomes write nothing, leaving the previously stored state in place. -/
theorem c5_amended_state_update :
    ∀ (env : AuthEnv) (u p now text msg : String) (c : Nat) (f : PyFile),
      fileAfterSave f (authenticate env u p (PostOutcome.response 200 text) now).saved
          = PyFile.content (authDataToJson (saveAuthStatusData true (some u) now env.selfPodId))
      ∧ fileAfterSave f (authenticate env u p (PostOutcome.response 401 text) now).saved
          = PyFile.content (authDataToJson (saveAuthStatusData false none now env.selfPodId))
      ∧ fileAfterSave f (authenticate env u p (PostOutcome.response 403 text) now).saved
          = PyFile.content (authDataToJson (saveAuthStatusData false none now env.selfPodId))
      ∧ (c ≠ 200 → c ≠ 401 → c ≠ 403 →
          fileAfterSave f (authenticate env u p (PostOutcome.response c text) now).saved
            = PyFile.content (authDataToJson (saveAuthStatusData false none now env.selfPodId)))
      ∧ fileAfterSave f (authenticate env u p PostOutcome.raiseTimeout now).saved = f
      ∧ fileAfterSave f (authenticate env u p PostOutcome.raiseConnectionError now).saved = f
      ∧ fileAfterSave f (authenticate env u p (PostOutcome.raiseOther msg) now).saved = f := by
  intro env u p now text msg c f
  refine ⟨rfl, rfl, rfl, ?_, rfl, rfl, rfl⟩
  intro h200 h401 h403
  simp [authenticate, fileAfterSave, h200, h401, h403]

/-- C5 witness: the amended theorem at concrete inputs, status 500. -/
theorem c5_witness :
    fileAfterSave fileBeforeFixture
        (authenticate envFixture "alice" "pw" (PostOutcome.response 500 "boom")
          "2026-01-02T00:00:00").saved
      = PyFile.content (authDataToJson
          (saveAuthStatusData false none "2026-01-02T00:00:00" "pod-1")) :=
  (c5_amended_state_update envFixture "alice" "pw" "2026-01-02T00:00:00"
      "boom" "unused" 500 fileBeforeFixture).2.2.2.1
    (by decide) (by decide) (by decide)

/-- C4: the pod identity placed in the request body (which is also the
payload handed to signing) is resolved per call in this order: the
environment identity when non-empty and not the sentinel "unknown";
otherwise the truthy `podId` value of the metadata file when it exists and
parses to a dict holding one; otherwise the identity from construction
time. In particular, environment identity "unknown" with metadata
`podId: "pod-7"` resolves to "pod-7". -/
theorem c4_pod_identity_resolution_order :
    (∀ (envPid selfPid : String) (meta : PyFile),
        envPid ≠ "" → envPid ≠ "unknown" →
          getCurrentPodId envPid meta selfPid = Json.str envPid)
    ∧ (∀ (envPid selfPid : String) (meta : PyFile) (v : Json),
        (envPid = "" ∨ envPid = "unknown") → metaPodId meta = some v →
          getCurrentPodId envPid meta selfPid = v)
    ∧ (∀ (envPid selfPid : String) (meta : PyFile),
        (envPid = "" ∨ envPid = "unknown") → metaPodId meta = none →
          getCurrentPodId envPid meta selfPid = Json.str selfPid)
    ∧ (∀ selfPid : String,
        getCurrentPodId "unknown"
          (PyFile.content (Json.obj [("podId", Json.str "pod-7")])) selfPid
          = Json.str "pod-7")
    ∧ (∀ (env : AuthEnv) (u p : String),
        (buildAuthRequest env u p).payload
          = Json.obj
              [("password", Json.str p),
               ("runPodId",
                 getCurrentPodId env.runpodPodIdEnv env.metaFile env.selfPodId),
               ("username", Json.str u)]) := by
  have hneg : ∀ envPid : String, (envPid = "" ∨ envPid = "unknown") →
      ¬(envPid ≠ "" ∧ envPid ≠ "unknown") := by
    intro envPid h
    rcases h with h | h <;> simp [h]
  refine ⟨?_, ?_, ?_, fun selfPid => rfl, fun env u p => rfl⟩
  · intro envPid selfPid meta h1 h2
    unfold getCurrentPodId
    rw [if_pos ⟨h1, h2⟩]
  · intro envPid selfPid meta v he hm
    unfold getCurrentPodId
    rw [if_neg (hneg envPid he)]
    cases meta with
    | content j =>
        cases j with
        | obj kvs =>
            cases hl : List.lookup "podId" kvs with
            | none => simp [metaPodId, hl] at hm
            | some w =>
                by_cases ht : jsonTruthy w
                · have hwv : w = v := by simpa [metaPodId, hl, ht] using hm
                  subst hwv
                  simp [hl, ht]
                · simp [metaPodId, hl, ht] at hm
        | null => simp [metaPodId] at hm
        | bool b => simp [metaPodId] at hm
        | num n => simp [metaPodId] at hm
        | str s => simp [metaPodId] at hm
        | arr xs => simp [metaPodId] at hm
    | missing => simp [metaPodId] at hm
    | unreadable => simp [metaPodId] at hm
    | invalidJson => simp [metaPodId] at hm
  · intro envPid selfPid meta he hm
    unfold getCurrentPodId
    rw [if_neg (hneg envPid he)]
    cases meta with
    | content j =>
        cases j with
        | obj kvs =>
            cases hl : List.lookup "podId" kvs with
            | none => simp [hl]
            | some w =>
                by_cases ht : jsonTruthy w
                · simp [metaPodId, hl, ht] at hm
                · simp [hl, ht]
        | null => rfl
        | bool b => rfl
        | num n => rfl
        | str s => rfl
        | arr xs => rfl
    | missing => rfl
    | unreadable => rfl
    | invalidJson => rfl

/-- C4 witness: with environment identity "unknown" and a metadata file
holding podId "pod-7", the request body carries runPodId "pod-7". -/
theorem c4_witness :
    getCurrentPodId "unknown"
        (PyFile.content (Json.obj [("podId", Json.str "pod-7")])) "construction-pod"
      = Json.str "pod-7" :=
  c4_pod_identity_resolution_order.2.1 "unknown" "construction-pod"
    (PyFile.content (Json.obj [("podId", Json.str "pod-7")])) (Json.str "pod-7")
    (Or.inr rfl) rfl
